import Mathlib

/-!
Shallow embedding of the CRM-MAIN8-NEW healthcare application.

Server side (src/server/database.ts): the sql.js database is modelled as an
explicit record of tables (lists of rows).  Each mutating operation is a
function DB -> DB x result; a statement that throws leaves the state as it
was at the moment of the throw (sql.js applies or rejects one statement at
a time), which matches the try/catch structure of the source.  The schema
constraints that the claims exercise (UNIQUE on users.username, users.email,
pending_registrations.email, doctors.license_number; CHECK on users.role)
are part of the insert operations, since sql.js enforces them per statement.
bcrypt hashing is external code; it is modelled by the constructor
PwVal.hashed, so that one application of the hash is one constructor.

Client side (src/unnamed/part_000, the CustomersManagement page): the age
and registration-period filter branches of filteredPatients are embedded
over a JsDate record holding the getFullYear/getMonth/getDate components
and over millisecond timestamps for getTime.
-/

/-- Password values: PwVal.plain is a plaintext string, PwVal.hashed p is one
application of bcrypt.hash to p.  bcrypt is an external library, so the hash
is modelled as a free constructor. -/
inductive PwVal where
  | plain (s : String)
  | hashed (p : PwVal)
deriving DecidableEq

/-- Errors thrown by sql.js statements or by the database layer itself. -/
inductive DbError where
  | notFoundPending
  | noSuchTable (t : String)
  | uniqueViolation (col : String)
  | checkViolation (col : String)
deriving DecidableEq

instance {ε α : Type} [DecidableEq ε] [DecidableEq α] :
    DecidableEq (Except ε α) := fun a b =>
  match a, b with
  | Except.error e1, Except.error e2 =>
    if h : e1 = e2 then isTrue (by rw [h])
    else isFalse (fun hh => h (by cases hh; rfl))
  | Except.error _, Except.ok _ => isFalse (fun hh => Except.noConfusion hh)
  | Except.ok _, Except.error _ => isFalse (fun hh => Except.noConfusion hh)
  | Except.ok v1, Except.ok v2 =>
    if h : v1 = v2 then isTrue (by rw [h])
    else isFalse (fun hh => h (by cases hh; rfl))

/-- Row of the users table (schema in createTables, database.ts lines 101-114). -/
structure UserRow where
  id : Nat
  username : String
  email : String
  password : PwVal
  role : String
  full_name : String
  phone : Option String
  status : String
  created_at : String
  updated_at : String
deriving DecidableEq

/-- Row of the customers table, and of a patients table when one exists
(schema in createTables lines 117-140; the patients insert in createPatient
lists the same columns). -/
structure PatientRow where
  id : Nat
  user_id : Nat
  date_of_birth : Option String
  gender : Option String
  blood_group : Option String
  address : Option String
  emergency_contact : Option String
  emergency_contact_name : Option String
  emergency_contact_relation : Option String
  allergies : Option String
  medical_conditions : Option String
  current_medications : Option String
  insurance : Option String
  insurance_policy_number : Option String
  occupation : Option String
  height : Option Int
  weight : Option Int
  created_at : String
  updated_at : String
deriving DecidableEq

/-- Row of the doctors table (schema lines 143-158).  consultation_fee is a
DECIMAL in the schema; it is modelled as Int because no claim computes with
fees. -/
structure DoctorRow where
  id : Nat
  user_id : Nat
  specialization : Option String
  license_number : Option String
  experience_years : Option Int
  consultation_fee : Option Int
  available_days : Option String
  available_time_start : Option String
  available_time_end : Option String
  created_at : String
  updated_at : String
deriving DecidableEq

/-- Row of the pending_registrations table (schema lines 201-225). -/
structure PendingRow where
  id : Nat
  username : String
  email : String
  password : PwVal
  role : String
  full_name : String
  phone : Option String
  status : String
  admin_notes : Option String
  approved_by : Option Nat
  specialization : Option String
  license_number : Option String
  experience_years : Option Int
  consultation_fee : Option Int
  available_days : Option String
  available_time_start : Option String
  available_time_end : Option String
  department : Option String
  employee_id : Option String
  created_at : String
  updated_at : String
deriving DecidableEq

/-- The in-memory sql.js database.  tables lists the names of the tables that
exist in the file; createTables (run at every startup) guarantees every table
of schemaTables exists, so existence checks are modelled only for the
"patients" table, which the schema never creates.  The next ids model
AUTOINCREMENT / last_insert_rowid. -/
structure DB where
  tables : List String
  users : List UserRow
  customers : List PatientRow
  patients : List PatientRow
  doctors : List DoctorRow
  pendings : List PendingRow
  nextUserId : Nat
  nextPatientId : Nat
  nextDoctorId : Nat
  nextPendingId : Nat
deriving DecidableEq

/-- Names of the tables created by createTables (database.ts lines 98-269).
Note that the list has a customers table and no patients table. -/
def schemaTables : List String :=
  ["users", "customers", "doctors", "appointments", "ambulance_requests",
   "pending_registrations", "feedback_complaints", "complaint_feedback"]

/-- JavaScript x || null on an optional string: undefined and the empty
string (the only falsy string) both become null. -/
def orNullStr : Option String → Option String
  | none => none
  | some s => if s = "" then none else some s

/-- JavaScript x || null on an optional number: undefined and 0 both become
null. -/
def orNullInt : Option Int → Option Int
  | none => none
  | some n => if n = 0 then none else some n

/-- getUserByEmail (database.ts lines 440-480): first users row with the
given email, or undefined. -/
def getUserByEmail (db : DB) (email : String) : Option UserRow :=
  db.users.find? (fun u => u.email = email)

/-- One INSERT INTO users statement, as issued by createUser and by
approvePendingRegistration (lines 409-422 and 947-960): the sql.js engine
enforces the CHECK on role and the UNIQUE constraints on username and email;
status defaults to active, created_at and updated_at to the current time.
On an error the statement is rejected and the database is unchanged. -/
def insertUser (db : DB) (username email : String) (password : PwVal)
    (role full_name : String) (phone : Option String) (now : String) :
    DB × Except DbError Nat :=
  if ¬ (role = "admin" ∨ role = "doctor" ∨ role = "customer" ∨ role = "staff") then
    (db, Except.error (DbError.checkViolation "users.role"))
  else if db.users.any (fun u => u.username = username) then
    (db, Except.error (DbError.uniqueViolation "users.username"))
  else if db.users.any (fun u => u.email = email) then
    (db, Except.error (DbError.uniqueViolation "users.email"))
  else
    ({ db with
        users := db.users ++ [{
          id := db.nextUserId, username := username, email := email,
          password := password, role := role, full_name := full_name,
          phone := orNullStr phone, status := "active",
          created_at := now, updated_at := now }],
        nextUserId := db.nextUserId + 1 },
     Except.ok db.nextUserId)

/-- Input record of createUser (the User interface of database.ts): the
password field is plaintext. -/
structure UserInput where
  username : String
  email : String
  password : String
  role : String
  full_name : String
  phone : Option String
deriving DecidableEq

/-- createUser (database.ts lines 402-438): bcrypt-hashes the plaintext
password, then one INSERT INTO users. -/
def createUser (db : DB) (user : UserInput) (now : String) :
    DB × Except DbError Nat :=
  insertUser db user.username user.email (PwVal.hashed (PwVal.plain user.password))
    user.role user.full_name user.phone now

/-- Input record of createDoctor (the Doctor interface). -/
structure DoctorInput where
  user_id : Nat
  specialization : Option String
  license_number : Option String
  experience_years : Option Int
  consultation_fee : Option Int
  available_days : Option String
  available_time_start : Option String
  available_time_end : Option String
deriving DecidableEq

/-- Does the given license value collide with a doctors row?  NULL license
values never collide (SQLite UNIQUE ignores NULLs). -/
def licenseConflict (db : DB) (license : Option String) : Bool :=
  match license with
  | none => false
  | some l => db.doctors.any (fun d => d.license_number = some l)

/-- The doctors row built by the createDoctor INSERT (database.ts lines
652-669): every optional field is passed through JavaScript x || null. -/
def mkDoctorRow (db : DB) (doctor : DoctorInput) (now : String) : DoctorRow :=
  { id := db.nextDoctorId, user_id := doctor.user_id,
    specialization := orNullStr doctor.specialization,
    license_number := orNullStr doctor.license_number,
    experience_years := orNullInt doctor.experience_years,
    consultation_fee := orNullInt doctor.consultation_fee,
    available_days := orNullStr doctor.available_days,
    available_time_start := orNullStr doctor.available_time_start,
    available_time_end := orNullStr doctor.available_time_end,
    created_at := now, updated_at := now }

/-- createDoctor (database.ts lines 650-684): one INSERT INTO doctors; the
engine enforces the UNIQUE constraint on license_number. -/
def createDoctor (db : DB) (doctor : DoctorInput) (now : String) :
    DB × Except DbError Nat :=
  if licenseConflict db (orNullStr doctor.license_number) then
    (db, Except.error (DbError.uniqueViolation "doctors.license_number"))
  else
    ({ db with
        doctors := db.doctors ++ [mkDoctorRow db doctor now],
        nextDoctorId := db.nextDoctorId + 1 },
     Except.ok db.nextDoctorId)

/-- Input record of createPatient (the Patient interface). -/
structure PatientInput where
  user_id : Nat
  date_of_birth : Option String
  gender : Option String
  blood_group : Option String
  address : Option String
  emergency_contact : Option String
  emergency_contact_name : Option String
  emergency_contact_relation : Option String
  allergies : Option String
  medical_conditions : Option String
  current_medications : Option String
  insurance : Option String
  insurance_policy_number : Option String
  occupation : Option String
  height : Option Int
  weight : Option Int
deriving DecidableEq

/-- createPatient (database.ts lines 604-647): one INSERT INTO patients.
The statement is prepared against the patients table, so when that table
does not exist the prepare throws and the function rethrows. -/
def createPatient (db : DB) (patient : PatientInput) (now : String) :
    DB × Except DbError Nat :=
  if "patients" ∈ db.tables then
    ({ db with
        patients := db.patients ++ [{
          id := db.nextPatientId, user_id := patient.user_id,
          date_of_birth := orNullStr patient.date_of_birth,
          gender := orNullStr patient.gender,
          blood_group := orNullStr patient.blood_group,
          address := orNullStr patient.address,
          emergency_contact := orNullStr patient.emergency_contact,
          emergency_contact_name := orNullStr patient.emergency_contact_name,
          emergency_contact_relation := orNullStr patient.emergency_contact_relation,
          allergies := orNullStr patient.allergies,
          medical_conditions := orNullStr patient.medical_conditions,
          current_medications := orNullStr patient.current_medications,
          insurance := orNullStr patient.insurance,
          insurance_policy_number := orNullStr patient.insurance_policy_number,
          occupation := orNullStr patient.occupation,
          height := orNullInt patient.height,
          weight := orNullInt patient.weight,
          created_at := now, updated_at := now }],
        nextPatientId := db.nextPatientId + 1 },
     Except.ok db.nextPatientId)
  else
    (db, Except.error (DbError.noSuchTable "patients"))

/-- Shape of one row of the getAllPatients SELECT (lines 689-706). -/
structure PatientListItem where
  user_id : Nat
  full_name : String
  email : String
  phone : Option String
  date_of_birth : Option String
  gender : Option String
  blood_group : Option String
  address : Option String
  medical_conditions : Option String
  height : Option Int
  weight : Option Int
  created_at : String
deriving DecidableEq

def insertByName (x : PatientListItem) : List PatientListItem → List PatientListItem
  | [] => [x]
  | y :: ys => if x.full_name < y.full_name then x :: y :: ys else y :: insertByName x ys

/-- ORDER BY u.full_name of the getAllPatients query. -/
def sortByName : List PatientListItem → List PatientListItem
  | [] => []
  | x :: xs => insertByName x (sortByName xs)

/-- getAllPatients (database.ts lines 687-729): SELECT with a JOIN of users
and patients ordered by full_name; every thrown error (in particular the
missing patients table) is caught and turned into the empty list. -/
def getAllPatients (db : DB) : List PatientListItem :=
  if "patients" ∈ db.tables then
    sortByName (db.users.flatMap (fun u =>
      (db.patients.filter (fun p => p.user_id = u.id)).map (fun p =>
        { user_id := u.id, full_name := u.full_name, email := u.email,
          phone := u.phone, date_of_birth := p.date_of_birth,
          gender := p.gender, blood_group := p.blood_group,
          address := p.address, medical_conditions := p.medical_conditions,
          height := p.height, weight := p.weight,
          created_at := p.created_at })))
  else []

/-- Input record of createPendingRegistration (the PendingRegistration
interface): the password field is the submitted plaintext. -/
structure RegInput where
  username : String
  email : String
  password : String
  role : String
  full_name : String
  phone : Option String
  specialization : Option String
  license_number : Option String
  experience_years : Option Int
  consultation_fee : Option Int
  available_days : Option String
  available_time_start : Option String
  available_time_end : Option String
  department : Option String
  employee_id : Option String
deriving DecidableEq

/-- The pending_registrations row built by the createPendingRegistration
INSERT (database.ts lines 809-835): optional fields pass through JavaScript
x || null; status, created_at and updated_at take their column defaults. -/
def mkPendingRow (db : DB) (registration : RegInput) (hashedPassword : PwVal)
    (now : String) : PendingRow :=
  { id := db.nextPendingId,
    username := registration.username, email := registration.email,
    password := hashedPassword, role := registration.role,
    full_name := registration.full_name,
    phone := orNullStr registration.phone, status := "pending",
    admin_notes := none, approved_by := none,
    specialization := orNullStr registration.specialization,
    license_number := orNullStr registration.license_number,
    experience_years := orNullInt registration.experience_years,
    consultation_fee := orNullInt registration.consultation_fee,
    available_days := orNullStr registration.available_days,
    available_time_start := orNullStr registration.available_time_start,
    available_time_end := orNullStr registration.available_time_end,
    department := orNullStr registration.department,
    employee_id := orNullStr registration.employee_id,
    created_at := now, updated_at := now }

/-- createPendingRegistration (database.ts lines 798-851): bcrypt-hashes the
password and issues one INSERT INTO pending_registrations.  The only
constraint on that statement is the UNIQUE constraint on
pending_registrations.email; the users table is not consulted.  status,
created_at and updated_at take their column defaults. -/
def createPendingRegistration (db : DB) (registration : RegInput) (now : String) :
    DB × Except DbError Nat :=
  let hashedPassword := PwVal.hashed (PwVal.plain registration.password)
  if db.pendings.any (fun r => r.email = registration.email) then
    (db, Except.error (DbError.uniqueViolation "pending_registrations.email"))
  else
    ({ db with
        pendings := db.pendings ++ [mkPendingRow db registration hashedPassword now],
        nextPendingId := db.nextPendingId + 1 },
     Except.ok db.nextPendingId)

/-- The Doctor object that approvePendingRegistration builds from the staged
registration before calling createDoctor (database.ts lines 966-977). -/
def mkStagedDoctor (userId : Nat) (registration : PendingRow) : DoctorInput :=
  { user_id := userId,
    specialization := registration.specialization,
    license_number := registration.license_number,
    experience_years := registration.experience_years,
    consultation_fee := registration.consultation_fee,
    available_days := registration.available_days,
    available_time_start := registration.available_time_start,
    available_time_end := registration.available_time_end }

/-- The users row that approvePendingRegistration inserts for a staged
registration (lines 947-960): the already hashed password is copied as is. -/
def mkApprovedUser (db : DB) (reg : PendingRow) (now : String) : UserRow :=
  { id := db.nextUserId, username := reg.username, email := reg.email,
    password := reg.password, role := reg.role, full_name := reg.full_name,
    phone := orNullStr reg.phone, status := "active",
    created_at := now, updated_at := now }

/-- The UPDATE that approvePendingRegistration applies to the decided row
(lines 981-988). -/
def approveStamp (adminUserId : Nat) (adminNotes : Option String) (now : String)
    (r : PendingRow) : PendingRow :=
  { r with status := "approved", approved_by := some adminUserId,
           admin_notes := orNullStr adminNotes, updated_at := now }

/-- approvePendingRegistration (database.ts lines 918-1000): reads the row
by id (throwing when absent), inserts a users row copying the already hashed
password, then when the staged role is doctor inserts a doctors row, then
updates the pending row to approved.  The stored status is never read or
checked.  A statement that throws stops the sequence there, leaving the
effects of the earlier statements in place (the source catches and
rethrows). -/
def approvePendingRegistration (db : DB) (pendingId adminUserId : Nat)
    (adminNotes : Option String) (now : String) : DB × Except DbError Bool :=
  match db.pendings.find? (fun r => r.id = pendingId) with
  | none => (db, Except.error DbError.notFoundPending)
  | some registration =>
    match insertUser db registration.username registration.email
        registration.password registration.role registration.full_name
        registration.phone now with
    | (dbU, Except.error e) => (dbU, Except.error e)
    | (db1, Except.ok userId) =>
      match (if registration.role = "doctor" then
          match createDoctor db1 (mkStagedDoctor userId registration) now with
          | (db2, Except.error e) => (db2, Except.error e)
          | (db2, Except.ok _) => (db2, Except.ok ())
        else (db1, Except.ok ())) with
      | (dbX, Except.error e) => (dbX, Except.error e)
      | (dbX, Except.ok _) =>
        ({ dbX with
            pendings := dbX.pendings.map (fun r =>
              if r.id = pendingId then approveStamp adminUserId adminNotes now r
              else r) },
         Except.ok true)

/-- rejectPendingRegistration (database.ts lines 1002-1025): one
unconditional UPDATE setting status, approved_by, admin_notes and updated_at
on the row matching pendingId, then returns true.  No lookup, no status
check, no notes validation. -/
def rejectPendingRegistration (db : DB) (pendingId adminUserId : Nat)
    (adminNotes : String) (now : String) : DB × Bool :=
  ({ db with
      pendings := db.pendings.map (fun r =>
        if r.id = pendingId then
          { r with status := "rejected", approved_by := some adminUserId,
                   admin_notes := some adminNotes, updated_at := now }
        else r) },
   true)

/-- suspendUser (database.ts lines 1029-1049): UPDATE users SET
status = suspended WHERE id = ? AND role != admin. -/
def suspendUser (db : DB) (userId : Nat) (now : String) : DB × Bool :=
  ({ db with
      users := db.users.map (fun u =>
        if u.id = userId ∧ ¬ u.role = "admin" then
          { u with status := "suspended", updated_at := now }
        else u) },
   true)

/-- reactivateUser (database.ts lines 1051-1071): UPDATE users SET
status = active WHERE id = ? AND role != admin. -/
def reactivateUser (db : DB) (userId : Nat) (now : String) : DB × Bool :=
  ({ db with
      users := db.users.map (fun u =>
        if u.id = userId ∧ ¬ u.role = "admin" then
          { u with status := "active", updated_at := now }
        else u) },
   true)

/-- deleteUser (database.ts lines 1073-1102): throws (caught, returning
false) when the user has role admin; otherwise DELETE FROM patients, then
doctors, then the users row itself.  The first DELETE is prepared against
the patients table, so when that table does not exist the statement throws
before anything was removed and the catch returns false. -/
def deleteUser (db : DB) (userId : Nat) : DB × Bool :=
  if (db.users.find? (fun u => u.id = userId)).map (fun u => u.role) = some "admin" then
    (db, false)
  else if "patients" ∈ db.tables then
    ({ db with
        patients := db.patients.filter (fun p => ¬ p.user_id = userId),
        doctors := db.doctors.filter (fun d => ¬ d.user_id = userId),
        users := db.users.filter (fun u => ¬ (u.id = userId ∧ ¬ u.role = "admin")) },
     true)
  else (db, false)

/-- The getFullYear, getMonth and getDate components of a JavaScript Date
(getMonth is zero based; only differences of components are ever used). -/
structure JsDate where
  year : Int
  month : Int
  day : Int
deriving DecidableEq

/-- calculateAge (part_000 lines 208-218) on a present date of birth: whole
calendar years, decremented when the month/day of today precede the birth
month/day. -/
def calculateAge (today birth : JsDate) : Int :=
  let age := today.year - birth.year
  let monthDiff := today.month - birth.month
  if monthDiff < 0 ∨ (monthDiff = 0 ∧ today.day < birth.day) then age - 1 else age

/-- The age used by the ageRange filter branch (part_000 line 130): a
missing date_of_birth yields 0, otherwise calculateAge. -/
def filterAge (today : JsDate) (dob : Option JsDate) : Int :=
  match dob with
  | some d => calculateAge today d
  | none => 0

/-- The ageRange branch of filteredPatients (part_000 lines 129-145). -/
def ageRangePasses (ageRange : String) (today : JsDate) (dob : Option JsDate) : Bool :=
  if ageRange = "all" then true
  else
    let age := filterAge today dob
    if ageRange = "0-18" then (if age > 18 then false else true)
    else if ageRange = "19-30" then (if age < 19 ∨ age > 30 then false else true)
    else if ageRange = "31-50" then (if age < 31 ∨ age > 50 then false else true)
    else if ageRange = "51+" then (if age < 51 then false else true)
    else true

/-- Math.ceil of the absolute millisecond distance divided by one day in
milliseconds (part_000 lines 156-159). -/
def diffDays (nowMs createdMs : Int) : Nat :=
  ((nowMs - createdMs).natAbs + 86400000 - 1) / 86400000

/-- The registrationPeriod branch of filteredPatients (part_000 lines
154-175): each bucket is only an upper bound on diffDays. -/
def registrationPeriodPasses (period : String) (nowMs createdMs : Int) : Bool :=
  if period = "all" then true
  else
    let dd := diffDays nowMs createdMs
    if period = "last-week" then (if dd > 7 then false else true)
    else if period = "last-month" then (if dd > 30 then false else true)
    else if period = "last-3-months" then (if dd > 90 then false else true)
    else if period = "last-year" then (if dd > 365 then false else true)
    else true

/-! Test fixtures: concrete rows and databases used as inputs. -/

/-- Fixture: a staged staff registration with every optional field empty. -/
def pendBase : PendingRow :=
  { id := 1, username := "drjones", email := "drjones@clinic.test",
    password := PwVal.hashed (PwVal.plain "secret1"), role := "staff",
    full_name := "Dr Jones", phone := none, status := "pending",
    admin_notes := none, approved_by := none, specialization := none,
    license_number := none, experience_years := none, consultation_fee := none,
    available_days := none, available_time_start := none,
    available_time_end := none, department := none, employee_id := none,
    created_at := "2026-01-01 00:00:00", updated_at := "2026-01-01 00:00:00" }

/-- Fixture: the same candidate as a submission input (plaintext password). -/
def regBase : RegInput :=
  { username := "drjones", email := "drjones@clinic.test",
    password := "secret1", role := "staff", full_name := "Dr Jones",
    phone := none, specialization := none, license_number := none,
    experience_years := none, consultation_fee := none,
    available_days := none, available_time_start := none,
    available_time_end := none, department := none, employee_id := none }

/-- Fixture: a database freshly set up by createTables, with no rows. -/
def emptyDB : DB :=
  { tables := schemaTables, users := [], customers := [], patients := [],
    doctors := [], pendings := [], nextUserId := 1, nextPatientId := 1,
    nextDoctorId := 1, nextPendingId := 1 }

/-- Fixture: an admin user row. -/
def adminRow : UserRow :=
  { id := 1, username := "admin", email := "admin@clinic.test",
    password := PwVal.hashed (PwVal.plain "adminpw"), role := "admin",
    full_name := "Site Admin", phone := none, status := "active",
    created_at := "2025-01-01 00:00:00", updated_at := "2025-01-01 00:00:00" }

/-- Fixture: a customer user row. -/
def custRow : UserRow :=
  { id := 2, username := "pat", email := "pat@clinic.test",
    password := PwVal.hashed (PwVal.plain "patpw"), role := "customer",
    full_name := "Pat Ent", phone := some "555-0001", status := "active",
    created_at := "2025-02-01 00:00:00", updated_at := "2025-02-01 00:00:00" }

/-- Fixture: the customers-table profile of custRow. -/
def custProfile : PatientRow :=
  { id := 1, user_id := 2, date_of_birth := some "1990-05-05",
    gender := some "female", blood_group := some "O+", address := none,
    emergency_contact := none, emergency_contact_name := none,
    emergency_contact_relation := none, allergies := none,
    medical_conditions := none, current_medications := none,
    insurance := none, insurance_policy_number := none, occupation := none,
    height := none, weight := none,
    created_at := "2025-02-01 00:00:00", updated_at := "2025-02-01 00:00:00" }

/-- Fixture: a patient profile as an input record. -/
def patientInputBase : PatientInput :=
  { user_id := 2, date_of_birth := some "1990-05-05",
    gender := some "female", blood_group := some "O+", address := none,
    emergency_contact := none, emergency_contact_name := none,
    emergency_contact_relation := none, allergies := none,
    medical_conditions := none, current_medications := none,
    insurance := none, insurance_policy_number := none, occupation := none,
    height := none, weight := none }

/-- Fixture for C1: pendBase after an admin rejection. -/
def pendRejected : PendingRow :=
  { pendBase with
    status := "rejected", admin_notes := some "incomplete", approved_by := some 9 }

/-- Fixture for C1: a store whose only pending registration was rejected. -/
def dbC1 : DB :=
  { tables := schemaTables, users := [], customers := [], patients := [],
    doctors := [], pendings := [pendRejected],
    nextUserId := 1, nextPatientId := 1, nextDoctorId := 1, nextPendingId := 2 }

/-- Fixture: a user row for an already registered doctor. -/
def docUserRow : UserRow :=
  { id := 50, username := "drfirst", email := "drfirst@clinic.test",
    password := PwVal.hashed (PwVal.plain "docpw"), role := "doctor",
    full_name := "Dr First", phone := none, status := "active",
    created_at := "2025-03-01 00:00:00", updated_at := "2025-03-01 00:00:00" }

/-- Fixture: the doctors row of docUserRow, holding license LIC-1. -/
def docRow : DoctorRow :=
  { id := 1, user_id := 50, specialization := some "cardiology",
    license_number := some "LIC-1", experience_years := some 10,
    consultation_fee := some 200, available_days := none,
    available_time_start := none, available_time_end := none,
    created_at := "2025-03-01 00:00:00", updated_at := "2025-03-01 00:00:00" }

/-- Fixture for C2: a staged doctor registration whose license collides with
the license of docRow. -/
def pendDoctor : PendingRow :=
  { pendBase with
    role := "doctor", license_number := some "LIC-1",
    specialization := some "cardiology" }

/-- Fixture for C2: a store where approving pendDoctor must hit the UNIQUE
constraint on doctors.license_number after the users insert. -/
def dbC2 : DB :=
  { tables := schemaTables, users := [docUserRow], customers := [],
    patients := [], doctors := [docRow], pendings := [pendDoctor],
    nextUserId := 51, nextPatientId := 1, nextDoctorId := 2, nextPendingId := 2 }

/-- Fixture for C4: pendBase after an admin approval. -/
def pendApproved : PendingRow :=
  { pendBase with
    status := "approved", admin_notes := some "welcome", approved_by := some 1 }

/-- Fixture for C4: a store whose only pending registration was approved. -/
def dbC4 : DB :=
  { tables := schemaTables, users := [], customers := [], patients := [],
    doctors := [], pendings := [pendApproved],
    nextUserId := 1, nextPatientId := 1, nextDoctorId := 1, nextPendingId := 2 }

/-- Fixture for C5: a store with a user already owning the candidate email
and no pending registrations. -/
def dbC5 : DB :=
  { tables := schemaTables,
    users := [{ custRow with email := "drjones@clinic.test" }],
    customers := [], patients := [], doctors := [], pendings := [],
    nextUserId := 3, nextPatientId := 1, nextDoctorId := 1, nextPendingId := 1 }

/-- Fixture for C9 and C10: an admin, a customer and its profile row, on a
schema-created store. -/
def dbC9 : DB :=
  { tables := schemaTables, users := [adminRow, custRow],
    customers := [custProfile], patients := [], doctors := [], pendings := [],
    nextUserId := 3, nextPatientId := 2, nextDoctorId := 1, nextPendingId := 1 }

/-! Helper lemmas. -/

theorem orNullStr_idem (o : Option String) :
    orNullStr (orNullStr o) = orNullStr o := by
  cases o with
  | none => rfl
  | some s => by_cases h : s = "" <;> simp [orNullStr, h]

theorem find_append_right {α : Type} (p : α → Bool) (l2 : List α) :
    ∀ l1 : List α, (∀ x ∈ l1, p x = false) →
      (l1 ++ l2).find? p = l2.find? p := by
  intro l1
  induction l1 with
  | nil => intro _; rfl
  | cons a t ih =>
    intro h
    have ha : p a = false := h a (List.mem_cons_self a t)
    rw [List.cons_append, List.find?_cons_of_neg _ (by simp [ha])]
    exact ih (fun x hx => h x (List.mem_cons_of_mem a hx))

theorem find_map_pred {α : Type} (p : α → Bool) (g : α → α)
    (hp : ∀ r, p (g r) = p r) :
    ∀ l : List α, (l.map g).find? p = (l.find? p).map g := by
  intro l
  induction l with
  | nil => rfl
  | cons a t ih =>
    by_cases h : p a = true
    · rw [List.map_cons, List.find?_cons_of_pos _ (by rw [hp]; exact h),
        List.find?_cons_of_pos _ h]
      rfl
    · have h2 : p a = false := by revert h; cases p a <;> simp
      rw [List.map_cons, List.find?_cons_of_neg _ (by rw [hp]; simp [h2]),
        List.find?_cons_of_neg _ (by simp [h2]), ih]

theorem ageRange018_eq (t : JsDate) (dob : Option JsDate) :
    ageRangePasses "0-18" t dob
      = (if filterAge t dob > 18 then false else true) := rfl

theorem ageRange1930_eq (t : JsDate) (dob : Option JsDate) :
    ageRangePasses "19-30" t dob
      = (if filterAge t dob < 19 ∨ filterAge t dob > 30 then false else true) := rfl

theorem periodWeek_eq (n c : Int) :
    registrationPeriodPasses "last-week" n c
      = (if diffDays n c > 7 then false else true) := by
  simp [registrationPeriodPasses]

theorem periodMonth_eq (n c : Int) :
    registrationPeriodPasses "last-month" n c
      = (if diffDays n c > 30 then false else true) := by
  simp [registrationPeriodPasses]

theorem period3Months_eq (n c : Int) :
    registrationPeriodPasses "last-3-months" n c
      = (if diffDays n c > 90 then false else true) := by
  simp [registrationPeriodPasses]

theorem periodYear_eq (n c : Int) :
    registrationPeriodPasses "last-year" n c
      = (if diffDays n c > 365 then false else true) := by
  simp [registrationPeriodPasses]

/-- C3: on a database whose tables are exactly the ones the schema setup
createTables produces (a customers table, never a patients table),
createPatient always fails with a missing-table error and getAllPatients
always returns the empty list, so the patient directory over such a store is
always empty. -/
theorem C3_patients_table_missing (db : DB) (p : PatientInput) (now : String)
    (h : db.tables = schemaTables) :
    createPatient db p now = (db, Except.error (DbError.noSuchTable "patients")) ∧
    getAllPatients db = [] := by
  have hm : ¬ ("patients" ∈ db.tables) := by rw [h]; decide
  constructor
  · unfold createPatient
    rw [if_neg hm]
  · unfold getAllPatients
    rw [if_neg hm]

/-- Witness for C3 at the empty schema-created store. -/
theorem C3_witness :
    createPatient emptyDB patientInputBase "2026-02-01 10:00:00"
      = (emptyDB, Except.error (DbError.noSuchTable "patients")) ∧
    getAllPatients emptyDB = [] :=
  C3_patients_table_missing emptyDB patientInputBase "2026-02-01 10:00:00" rfl

/-- C7 counterexample: with today 2026-10-12 (JsDate year 2026, month index
9, day 12) a date of birth of 2008-10-11 lies exactly 18 years and 1 day
before today, yet calculateAge yields 18, so the record falls in bracket
0-18 and not in bracket 19-30 as the claim states. -/
theorem C7_counterexample :
    calculateAge ⟨2026, 9, 12⟩ ⟨2008, 9, 11⟩ = 18 ∧
    ageRangePasses "19-30" ⟨2026, 9, 12⟩ (some ⟨2008, 9, 11⟩) = false ∧
    ageRangePasses "0-18" ⟨2026, 9, 12⟩ (some ⟨2008, 9, 11⟩) = true := by
  decide

/-- C7 amended: a date of birth exactly 18 years and 0 days before today is
classified in bracket 0-18 (age 18); a date of birth 18 years and 1 day
before today (same month with the previous day, or any day of the previous
month) also yields age 18 and stays in bracket 0-18, not 19-30; bracket
19-30 first applies to a date of birth 19 years and 0 days before today
(age 19); a missing date of birth yields age 0 and bracket 0-18. -/
theorem C7_age_bracket (y m d dPrev : Int) :
    (calculateAge ⟨y, m, d⟩ ⟨y - 18, m, d⟩ = 18 ∧
      ageRangePasses "0-18" ⟨y, m, d⟩ (some ⟨y - 18, m, d⟩) = true) ∧
    (calculateAge ⟨y, m, d⟩ ⟨y - 18, m, d - 1⟩ = 18 ∧
      ageRangePasses "0-18" ⟨y, m, d⟩ (some ⟨y - 18, m, d - 1⟩) = true ∧
      ageRangePasses "19-30" ⟨y, m, d⟩ (some ⟨y - 18, m, d - 1⟩) = false) ∧
    calculateAge ⟨y, m, d⟩ ⟨y - 18, m - 1, dPrev⟩ = 18 ∧
    (calculateAge ⟨y, m, d⟩ ⟨y - 19, m, d⟩ = 19 ∧
      ageRangePasses "19-30" ⟨y, m, d⟩ (some ⟨y - 19, m, d⟩) = true) ∧
    (filterAge ⟨y, m, d⟩ none = 0 ∧
      ageRangePasses "0-18" ⟨y, m, d⟩ none = true) := by
  have hA : calculateAge ⟨y, m, d⟩ ⟨y - 18, m, d⟩ = 18 := by
    simp only [calculateAge]; split_ifs with h <;> omega
  have hB : calculateAge ⟨y, m, d⟩ ⟨y - 18, m, d - 1⟩ = 18 := by
    simp only [calculateAge]; split_ifs with h <;> omega
  have hC : calculateAge ⟨y, m, d⟩ ⟨y - 18, m - 1, dPrev⟩ = 18 := by
    simp only [calculateAge]; split_ifs with h <;> omega
  have hD : calculateAge ⟨y, m, d⟩ ⟨y - 19, m, d⟩ = 19 := by
    simp only [calculateAge]; split_ifs with h <;> omega
  refine ⟨⟨hA, ?_⟩, ⟨hB, ?_, ?_⟩, hC, ⟨hD, ?_⟩, rfl, ?_⟩
  · rw [ageRange018_eq]; simp only [filterAge, hA]; norm_num
  · rw [ageRange018_eq]; simp only [filterAge, hB]; norm_num
  · rw [ageRange1930_eq]; simp only [filterAge, hB]; norm_num
  · rw [ageRange1930_eq]; simp only [filterAge, hD]; norm_num
  · rw [ageRange018_eq]; simp only [filterAge]; norm_num

/-- C8: the last-week bucket matches records created 0, 3 and exactly 7 days
ago and excludes one created 8 days ago; and every bucket is an upper bound
only, so a record matched by a smaller bucket is matched by every larger
bucket. -/
theorem C8_registration_period (now : Int) :
    registrationPeriodPasses "last-week" now now = true ∧
    registrationPeriodPasses "last-week" now (now - 3 * 86400000) = true ∧
    registrationPeriodPasses "last-week" now (now - 7 * 86400000) = true ∧
    registrationPeriodPasses "last-week" now (now - 8 * 86400000) = false ∧
    (∀ created : Int, registrationPeriodPasses "last-week" now created = true →
      registrationPeriodPasses "last-month" now created = true) ∧
    (∀ created : Int, registrationPeriodPasses "last-month" now created = true →
      registrationPeriodPasses "last-3-months" now created = true) ∧
    (∀ created : Int, registrationPeriodPasses "last-3-months" now created = true →
      registrationPeriodPasses "last-year" now created = true) := by
  have hd0 : diffDays now now = 0 := by unfold diffDays; omega
  have hd3 : diffDays now (now - 3 * 86400000) = 3 := by unfold diffDays; omega
  have hd7 : diffDays now (now - 7 * 86400000) = 7 := by unfold diffDays; omega
  have hd8 : diffDays now (now - 8 * 86400000) = 8 := by unfold diffDays; omega
  refine ⟨?_, ?_, ?_, ?_, ?_, ?_, ?_⟩
  · rw [periodWeek_eq, hd0]; norm_num
  · rw [periodWeek_eq, hd3]; norm_num
  · rw [periodWeek_eq, hd7]; norm_num
  · rw [periodWeek_eq, hd8]; norm_num
  · intro c hc
    rw [periodWeek_eq] at hc
    rw [periodMonth_eq]
    by_cases hgt : diffDays now c > 7
    · rw [if_pos hgt] at hc; exact absurd hc (by simp)
    · rw [if_neg (by omega : ¬ diffDays now c > 30)]
  · intro c hc
    rw [periodMonth_eq] at hc
    rw [period3Months_eq]
    by_cases hgt : diffDays now c > 30
    · rw [if_pos hgt] at hc; exact absurd hc (by simp)
    · rw [if_neg (by omega : ¬ diffDays now c > 90)]
  · intro c hc
    rw [period3Months_eq] at hc
    rw [periodYear_eq]
    by_cases hgt : diffDays now c > 90
    · rw [if_pos hgt] at hc; exact absurd hc (by simp)
    · rw [if_neg (by omega : ¬ diffDays now c > 365)]

/-- Witness for C8: the week-to-month implication applied to a record
created 3 days before time 0. -/
theorem C8_witness :
    registrationPeriodPasses "last-month" 0 (0 - 3 * 86400000) = true :=
  (C8_registration_period 0).2.2.2.2.1 (0 - 3 * 86400000)
    (C8_registration_period 0).2.1

/-- C9 is a code bug: deleteUser targets a patients table that the schema
never creates, so on a schema-created store the first DELETE throws, the
catch returns false, and neither the customers profile row nor the users
row of the non-admin user 2 is removed; deleteUser never touches the
customers table where the Customer profiles actually live. -/
theorem C9_delete_noop :
    deleteUser dbC9 2 = (dbC9, false) ∧
    ¬ ("patients" ∈ dbC9.tables) ∧
    (dbC9.users.find? (fun u => u.id = 2)).map (fun u => u.role)
      = some "customer" ∧
    dbC9.customers.any (fun c => c.user_id = 2) = true := by
  decide

/-- C2 is a code bug: approving the staged doctor registration of dbC2,
whose license collides with an existing doctors row, inserts the users row,
then fails on the UNIQUE constraint of doctors.license_number and surfaces
the error without rollback: afterwards the new User exists while the Doctor
profile is missing and the registration still has status pending. -/
theorem C2_partial_state :
    (approvePendingRegistration dbC2 1 9 none "2026-02-02 10:00:00").2
      = Except.error (DbError.uniqueViolation "doctors.license_number") ∧
    (approvePendingRegistration dbC2 1 9 none "2026-02-02 10:00:00").1.users.length
      = dbC2.users.length + 1 ∧
    (approvePendingRegistration dbC2 1 9 none "2026-02-02 10:00:00").1.doctors
      = dbC2.doctors ∧
    (approvePendingRegistration dbC2 1 9 none "2026-02-02 10:00:00").1.pendings.map
        (fun r => r.status) = ["pending"] := by
  decide

/-- C1 counterexample: dbC1 stores one registration whose status is rejected
(not pending), yet approve succeeds and creates a User instead of failing
with an AlreadyDecided error. -/
theorem C1_counterexample :
    dbC1.pendings.map (fun r => r.status) = ["rejected"] ∧
    (approvePendingRegistration dbC1 1 9 none "2026-02-03 10:00:00").2
      = Except.ok true ∧
    (approvePendingRegistration dbC1 1 9 none "2026-02-03 10:00:00").1.users.length
      = 1 := by
  decide

/-- C4 counterexample: reject accepts empty notes, reports success for an
unresolved pendingId leaving the store unchanged, and overwrites an already
approved registration with status rejected instead of failing with an
AlreadyDecided error. -/
theorem C4_counterexample :
    dbC4.pendings.map (fun r => r.status) = ["approved"] ∧
    (rejectPendingRegistration dbC4 1 7 "" "2026-02-04 10:00:00").2 = true ∧
    (rejectPendingRegistration dbC4 1 7 "" "2026-02-04 10:00:00").1.pendings.map
        (fun r => r.status) = ["rejected"] ∧
    rejectPendingRegistration dbC4 99 7 "no row" "2026-02-04 10:00:00"
      = (dbC4, true) := by
  decide

/-- C4 corrected: rejectPendingRegistration runs one unconditional UPDATE.
It returns true whatever the store holds (even when no row matches the id),
never touches the users table, and rewrites any row matching pendingId to
status rejected with reviewer, notes (the empty string included) and
timestamp, whatever status that row had before. -/
theorem C4_reject_behavior (db : DB) (pid a : Nat) (notes now : String) :
    (rejectPendingRegistration db pid a notes now).2 = true ∧
    (rejectPendingRegistration db pid a notes now).1.users = db.users ∧
    (rejectPendingRegistration db pid a notes now).1.pendings.length
      = db.pendings.length ∧
    (∀ r ∈ db.pendings, r.id = pid →
      { r with status := "rejected", approved_by := some a,
               admin_notes := some notes, updated_at := now }
        ∈ (rejectPendingRegistration db pid a notes now).1.pendings) ∧
    (∀ r ∈ db.pendings, ¬ r.id = pid →
      r ∈ (rejectPendingRegistration db pid a notes now).1.pendings) := by
  refine ⟨rfl, rfl, by simp [rejectPendingRegistration], ?_, ?_⟩
  · intro r hr hid
    simp only [rejectPendingRegistration]
    exact List.mem_map.mpr ⟨r, hr, by rw [if_pos hid]⟩
  · intro r hr hid
    simp only [rejectPendingRegistration]
    exact List.mem_map.mpr ⟨r, hr, by rw [if_neg hid]⟩

/-- Fixture: pendApproved after the empty-notes rejection of the C4
witness. -/
def pendOverwritten : PendingRow :=
  { pendApproved with
    status := "rejected", approved_by := some 7,
    admin_notes := some "", updated_at := "2026-02-04 11:00:00" }

/-- Witness for C4 at dbC4: the approved row is overwritten with empty
notes. -/
theorem C4_witness :
    pendOverwritten
      ∈ (rejectPendingRegistration dbC4 1 7 "" "2026-02-04 11:00:00").1.pendings :=
  (C4_reject_behavior dbC4 1 7 "" "2026-02-04 11:00:00").2.2.2.1 pendApproved
    (by decide) (by decide)

/-- C5 counterexample: in dbC5 the candidate email already belongs to an
existing User, yet createPendingRegistration succeeds and inserts the
pending row, because it only ever consults the pending_registrations
table. -/
theorem C5_counterexample :
    (getUserByEmail dbC5 regBase.email).isSome = true ∧
    (createPendingRegistration dbC5 regBase "2026-02-05 10:00:00").2
      = Except.ok 1 ∧
    (createPendingRegistration dbC5 regBase "2026-02-05 10:00:00").1.pendings.length
      = 1 := by
  decide

/-- C5 corrected: createPendingRegistration fails, with a UNIQUE-constraint
error on pending_registrations.email rather than a distinguishable
DuplicateEmail value, exactly when the email already appears in any
pending_registrations row (whatever its status); it never consults the
users table; otherwise it inserts exactly one row whose status defaults to
pending and whose password is the hash of the submitted plaintext. -/
theorem C5_submit_behavior (db : DB) (reg : RegInput) (now : String) :
    (db.pendings.any (fun r => r.email = reg.email) = true →
      createPendingRegistration db reg now
        = (db, Except.error (DbError.uniqueViolation "pending_registrations.email"))) ∧
    (db.pendings.any (fun r => r.email = reg.email) = false →
      ∃ row : PendingRow,
        (createPendingRegistration db reg now).1.pendings = db.pendings ++ [row] ∧
        (createPendingRegistration db reg now).2 = Except.ok db.nextPendingId ∧
        (createPendingRegistration db reg now).1.users = db.users ∧
        row.status = "pending" ∧ row.email = reg.email ∧
        row.password = PwVal.hashed (PwVal.plain reg.password)) := by
  constructor
  · intro h
    simp only [createPendingRegistration]
    rw [if_pos h]
  · intro h
    simp only [createPendingRegistration]
    rw [if_neg (by simp [h])]
    exact ⟨_, rfl, rfl, rfl, rfl, rfl, rfl⟩

/-- Witness for C5 at the empty store. -/
theorem C5_witness :
    ∃ row : PendingRow,
      (createPendingRegistration emptyDB regBase "2026-02-05 11:00:00").1.pendings
        = emptyDB.pendings ++ [row] ∧
      (createPendingRegistration emptyDB regBase "2026-02-05 11:00:00").2
        = Except.ok emptyDB.nextPendingId ∧
      (createPendingRegistration emptyDB regBase "2026-02-05 11:00:00").1.users
        = emptyDB.users ∧
      row.status = "pending" ∧ row.email = regBase.email ∧
      row.password = PwVal.hashed (PwVal.plain regBase.password) :=
  (C5_submit_behavior emptyDB regBase "2026-02-05 11:00:00").2 (by decide)

/-- C10: every users row with role admin survives suspendUser,
reactivateUser and deleteUser unchanged, whatever userId those operations
are aimed at: the two UPDATE statements exclude admin rows in their WHERE
clause, and deleteUser refuses admin targets and excludes admin rows from
its DELETE. -/
theorem C10_admin_immutable (db : DB) (userId : Nat) (now : String)
    (u : UserRow) (hu : u ∈ db.users) (hrole : u.role = "admin") :
    u ∈ (suspendUser db userId now).1.users ∧
    u ∈ (reactivateUser db userId now).1.users ∧
    u ∈ (deleteUser db userId).1.users := by
  refine ⟨?_, ?_, ?_⟩
  · simp only [suspendUser]
    exact List.mem_map.mpr ⟨u, hu, by rw [if_neg (by simp [hrole])]⟩
  · simp only [reactivateUser]
    exact List.mem_map.mpr ⟨u, hu, by rw [if_neg (by simp [hrole])]⟩
  · unfold deleteUser
    split_ifs with h1 h2
    · exact hu
    · exact List.mem_filter.mpr ⟨hu, by simp [hrole]⟩
    · exact hu

/-- Witness for C10: the admin row of dbC9 survives all three operations
aimed at its own id. -/
theorem C10_witness :
    adminRow ∈ (suspendUser dbC9 1 "2026-02-06 10:00:00").1.users ∧
    adminRow ∈ (reactivateUser dbC9 1 "2026-02-06 10:00:00").1.users ∧
    adminRow ∈ (deleteUser dbC9 1).1.users :=
  C10_admin_immutable dbC9 1 "2026-02-06 10:00:00" adminRow (by decide)
    (by decide)

/-! Inversion and evaluation lemmas for the registration workflow. -/

theorem insertUser_ok_inv {db : DB} {un em : String} {pw : PwVal}
    {role fn : String} {ph : Option String} {now : String} {db1 : DB} {uid : Nat}
    (h : insertUser db un em pw role fn ph now = (db1, Except.ok uid)) :
    (role = "admin" ∨ role = "doctor" ∨ role = "customer" ∨ role = "staff") ∧
    db.users.any (fun u => u.username = un) = false ∧
    db.users.any (fun u => u.email = em) = false ∧
    db1 = { db with
      users := db.users ++ [{
        id := db.nextUserId, username := un, email := em, password := pw,
        role := role, full_name := fn, phone := orNullStr ph,
        status := "active", created_at := now, updated_at := now }],
      nextUserId := db.nextUserId + 1 } := by
  unfold insertUser at h
  by_cases h1 : role = "admin" ∨ role = "doctor" ∨ role = "customer" ∨ role = "staff"
  · rw [if_neg (not_not_intro h1)] at h
    by_cases h2 : db.users.any (fun u => u.username = un) = true
    · rw [if_pos h2] at h; simp at h
    · rw [if_neg h2] at h
      by_cases h3 : db.users.any (fun u => u.email = em) = true
      · rw [if_pos h3] at h; simp at h
      · rw [if_neg h3] at h
        rw [Prod.mk.injEq] at h
        exact ⟨h1, by simpa using h2, by simpa using h3, h.1.symm⟩
  · rw [if_pos h1] at h; simp at h

theorem createDoctor_proj (db : DB) (d : DoctorInput) (now : String) :
    (createDoctor db d now).1.users = db.users ∧
    (createDoctor db d now).1.pendings = db.pendings := by
  unfold createDoctor
  split_ifs <;> exact ⟨rfl, rfl⟩

theorem approve_ok_inv {db : DB} {pid a : Nat} {n : Option String}
    {now : String} {db1 : DB}
    (h : approvePendingRegistration db pid a n now = (db1, Except.ok true)) :
    ∃ reg : PendingRow,
      db.pendings.find? (fun r => r.id = pid) = some reg ∧
      (reg.role = "admin" ∨ reg.role = "doctor" ∨ reg.role = "customer" ∨
        reg.role = "staff") ∧
      mkApprovedUser db reg now ∈ db1.users ∧
      db1.pendings = db.pendings.map (fun r =>
        if r.id = pid then approveStamp a n now r else r) := by
  unfold approvePendingRegistration at h
  split at h
  · simp at h
  · next reg hf =>
    split at h
    · simp at h
    · next dbU uid hIU =>
      obtain ⟨hrole, hun, hem, hdbU⟩ := insertUser_ok_inv hIU
      have hU1 : dbU.users = db.users ++ [mkApprovedUser db reg now] := by
        rw [hdbU]; rfl
      have hU2 : dbU.pendings = db.pendings := by rw [hdbU]
      split at h
      · simp at h
      · next dbX u hSc =>
        simp only [Prod.mk.injEq] at h
        obtain ⟨hdb1, -⟩ := h
        split at hSc
        · split at hSc
          · simp at hSc
          · next dbA b hCD =>
            rw [Prod.mk.injEq] at hSc
            obtain ⟨hAX, -⟩ := hSc
            have hproj := createDoctor_proj dbU (mkStagedDoctor uid reg) now
            rw [hCD] at hproj
            have hA1 : dbA.users = dbU.users := hproj.1
            have hA2 : dbA.pendings = dbU.pendings := hproj.2
            refine ⟨reg, hf, hrole, ?_, ?_⟩
            · rw [← hdb1]
              show _ ∈ dbX.users
              rw [← hAX, hA1, hU1]
              exact List.mem_append_right _ (List.mem_cons_self _ _)
            · rw [← hdb1]
              show dbX.pendings.map _ = _
              rw [← hAX, hA2, hU2]
        · rw [Prod.mk.injEq] at hSc
          obtain ⟨hUX, -⟩ := hSc
          refine ⟨reg, hf, hrole, ?_, ?_⟩
          · rw [← hdb1]
            show _ ∈ dbX.users
            rw [← hUX, hU1]
            exact List.mem_append_right _ (List.mem_cons_self _ _)
          · rw [← hdb1]
            show dbX.pendings.map _ = _
            rw [← hUX, hU2]

theorem approveStamp_id (a : Nat) (n : Option String) (now : String)
    (r : PendingRow) : (approveStamp a n now r).id = r.id := rfl

theorem approve_notFound (db : DB) (pid a : Nat) (n : Option String)
    (now : String)
    (h : db.pendings.find? (fun r => r.id = pid) = none) :
    approvePendingRegistration db pid a n now
      = (db, Except.error DbError.notFoundPending) := by
  unfold approvePendingRegistration
  rw [h]

theorem approve_twice_fails (db db1 : DB) (pid a : Nat) (n : Option String)
    (now : String) (a2 : Nat) (n2 : Option String) (now2 : String)
    (h : approvePendingRegistration db pid a n now = (db1, Except.ok true)) :
    approvePendingRegistration db1 pid a2 n2 now2
      = (db1, Except.error (DbError.uniqueViolation "users.username")) := by
  obtain ⟨reg, hf, hrole, hmem, hpend⟩ := approve_ok_inv h
  have hid : reg.id = pid := by simpa using List.find?_some hf
  have key := find_map_pred (fun r : PendingRow => r.id = pid)
    (fun r => if r.id = pid then approveStamp a n now r else r)
    (fun r => by by_cases hr : r.id = pid <;> simp [hr, approveStamp])
    db.pendings
  have hfind1 : db1.pendings.find? (fun r => r.id = pid)
      = some (approveStamp a n now reg) := by
    rw [hpend, key, hf]
    simp [hid]
  have hrole2 : ((approveStamp a n now reg).role = "admin" ∨
      (approveStamp a n now reg).role = "doctor" ∨
      (approveStamp a n now reg).role = "customer" ∨
      (approveStamp a n now reg).role = "staff") := hrole
  have hany : db1.users.any
      (fun u => u.username = (approveStamp a n now reg).username) = true := by
    rw [List.any_eq_true]
    exact ⟨mkApprovedUser db reg now, hmem, by simp [approveStamp, mkApprovedUser]⟩
  have hins : insertUser db1 (approveStamp a n now reg).username
      (approveStamp a n now reg).email (approveStamp a n now reg).password
      (approveStamp a n now reg).role (approveStamp a n now reg).full_name
      (approveStamp a n now reg).phone now2
      = (db1, Except.error (DbError.uniqueViolation "users.username")) := by
    unfold insertUser
    rw [if_neg (not_not_intro hrole2), if_pos hany]
  unfold approvePendingRegistration
  split
  · next heq =>
    rw [hfind1] at heq
    exact Option.noConfusion heq
  · next reg2 heq =>
    rw [hfind1] at heq
    have hreg2 : approveStamp a n now reg = reg2 := Option.some.inj heq
    subst hreg2
    split
    · next dbU e heq2 =>
      have hcomb := heq2.symm.trans hins
      rw [Prod.mk.injEq] at hcomb
      obtain ⟨hdbU, herr⟩ := hcomb
      have he : e = DbError.uniqueViolation "users.username" := by
        simpa using herr
      subst hdbU
      subst he
      rfl
    · next dbU uid heq2 =>
      rw [hins] at heq2
      simp at heq2

theorem approve_ignores_status (db : DB) (pid a : Nat) (n : Option String)
    (now : String) (reg : PendingRow)
    (hf : db.pendings.find? (fun r => r.id = pid) = some reg)
    (hrole : reg.role = "staff")
    (hun : db.users.any (fun u => u.username = reg.username) = false)
    (hem : db.users.any (fun u => u.email = reg.email) = false) :
    (approvePendingRegistration db pid a n now).2 = Except.ok true ∧
    (approvePendingRegistration db pid a n now).1.users.length
      = db.users.length + 1 := by
  have hins : insertUser db reg.username reg.email reg.password reg.role
      reg.full_name reg.phone now
      = ({ db with
            users := db.users ++ [mkApprovedUser db reg now],
            nextUserId := db.nextUserId + 1 }, Except.ok db.nextUserId) := by
    unfold insertUser
    rw [if_neg (not_not_intro (Or.inr (Or.inr (Or.inr hrole)))),
      if_neg (by simp [hun]), if_neg (by simp [hem])]
    rfl
  unfold approvePendingRegistration
  split
  · next heq =>
    rw [hf] at heq
    exact Option.noConfusion heq
  · next reg2 heq =>
    rw [hf] at heq
    have hreg2 : reg = reg2 := Option.some.inj heq
    subst hreg2
    split
    · next dbU e heq2 =>
      rw [hins] at heq2
      simp at heq2
    · next dbU uid heq2 =>
      rw [hins] at heq2
      rw [Prod.mk.injEq] at heq2
      obtain ⟨hU, -⟩ := heq2
      rw [if_neg (by simp [hrole] : ¬ reg.role = "doctor")]
      constructor
      · rfl
      · show dbU.users.length = db.users.length + 1
        rw [← hU]
        show (db.users ++ [mkApprovedUser db reg now]).length
          = db.users.length + 1
        simp

/-- The store state after a successful createPendingRegistration. -/
def submitState (db : DB) (reg : RegInput) (now : String) : DB :=
  { db with
    pendings := db.pendings ++
      [mkPendingRow db reg (PwVal.hashed (PwVal.plain reg.password)) now],
    nextPendingId := db.nextPendingId + 1 }

theorem approve_succeeds (db : DB) (pid a : Nat) (n : Option String)
    (now : String) (reg : PendingRow)
    (hf : db.pendings.find? (fun r => r.id = pid) = some reg)
    (hrole : reg.role = "doctor" ∨ reg.role = "staff")
    (hun : db.users.any (fun u => u.username = reg.username) = false)
    (hem : db.users.any (fun u => u.email = reg.email) = false)
    (hlic : reg.role = "doctor" →
      licenseConflict db (orNullStr reg.license_number) = false) :
    (approvePendingRegistration db pid a n now).2 = Except.ok true ∧
    (approvePendingRegistration db pid a n now).1.users
      = db.users ++ [mkApprovedUser db reg now] := by
  have hrole4 : reg.role = "admin" ∨ reg.role = "doctor" ∨
      reg.role = "customer" ∨ reg.role = "staff" := by
    rcases hrole with h | h
    · exact Or.inr (Or.inl h)
    · exact Or.inr (Or.inr (Or.inr h))
  have hins : insertUser db reg.username reg.email reg.password reg.role
      reg.full_name reg.phone now
      = ({ db with
            users := db.users ++ [mkApprovedUser db reg now],
            nextUserId := db.nextUserId + 1 }, Except.ok db.nextUserId) := by
    unfold insertUser
    rw [if_neg (not_not_intro hrole4), if_neg (by simp [hun]),
      if_neg (by simp [hem])]
    rfl
  unfold approvePendingRegistration
  split
  · next heq =>
    rw [hf] at heq
    exact Option.noConfusion heq
  · next reg2 heq =>
    rw [hf] at heq
    have hreg2 : reg = reg2 := Option.some.inj heq
    subst hreg2
    split
    · next dbU e heq2 =>
      rw [hins] at heq2
      simp at heq2
    · next dbU uid heq2 =>
      rw [hins] at heq2
      rw [Prod.mk.injEq] at heq2
      obtain ⟨hU, -⟩ := heq2
      by_cases hdoc : reg.role = "doctor"
      · rw [if_pos hdoc]
        have hld : licenseConflict dbU
            (orNullStr (mkStagedDoctor uid reg).license_number) = false := by
          rw [← hU]
          exact hlic hdoc
        have hCDok : createDoctor dbU (mkStagedDoctor uid reg) now
            = ({ dbU with
                  doctors := dbU.doctors ++
                    [mkDoctorRow dbU (mkStagedDoctor uid reg) now],
                  nextDoctorId := dbU.nextDoctorId + 1 },
               Except.ok dbU.nextDoctorId) := by
          unfold createDoctor
          rw [if_neg (by simp [hld])]
        split
        · next dbA e heqCD =>
          rw [hCDok] at heqCD
          simp at heqCD
        · next dbA b heqCD =>
          rw [hCDok] at heqCD
          rw [Prod.mk.injEq] at heqCD
          obtain ⟨hA, -⟩ := heqCD
          constructor
          · rfl
          · show dbA.users = db.users ++ [mkApprovedUser db reg now]
            rw [← hA]
            show dbU.users = db.users ++ [mkApprovedUser db reg now]
            rw [← hU]
      · rw [if_neg hdoc]
        constructor
        · rfl
        · show dbU.users = db.users ++ [mkApprovedUser db reg now]
          rw [← hU]

/-- C1 corrected: approvePendingRegistration never reads the stored status.
First conjunct: an unresolved pendingId fails with the NotFound error.
Second conjunct: a second approve after a first successful approve leaves
the store unchanged and fails, but with the users-table UNIQUE violation on
username rather than a distinguishable AlreadyDecided error.  Third
conjunct: approve succeeds on any stored registration row whatever its
status (so also on a rejected one), as long as the staged staff username and
email do not collide with an existing User, and it then creates one User. -/
theorem C1_approve_behavior :
    (∀ (db : DB) (pid a : Nat) (n : Option String) (now : String),
        db.pendings.find? (fun r => r.id = pid) = none →
        approvePendingRegistration db pid a n now
          = (db, Except.error DbError.notFoundPending)) ∧
    (∀ (db db1 : DB) (pid a : Nat) (n : Option String) (now : String)
        (a2 : Nat) (n2 : Option String) (now2 : String),
        approvePendingRegistration db pid a n now = (db1, Except.ok true) →
        approvePendingRegistration db1 pid a2 n2 now2
          = (db1, Except.error (DbError.uniqueViolation "users.username"))) ∧
    (∀ (db : DB) (pid a : Nat) (n : Option String) (now : String)
        (reg : PendingRow),
        db.pendings.find? (fun r => r.id = pid) = some reg →
        reg.role = "staff" →
        db.users.any (fun u => u.username = reg.username) = false →
        db.users.any (fun u => u.email = reg.email) = false →
        (approvePendingRegistration db pid a n now).2 = Except.ok true ∧
        (approvePendingRegistration db pid a n now).1.users.length
          = db.users.length + 1) :=
  ⟨approve_notFound, approve_twice_fails, approve_ignores_status⟩

/-- Witness for C1: the NotFound conjunct at the empty store. -/
theorem C1_witness :
    approvePendingRegistration emptyDB 1 9 none "2026-02-03 11:00:00"
      = (emptyDB, Except.error DbError.notFoundPending) :=
  C1_approve_behavior.1 emptyDB 1 9 none "2026-02-03 11:00:00" rfl

/-- C6: for a valid submission whose email is free in both the users table
and the pending_registrations table, whose username is free among users, and
whose license collides with no doctors row, createPendingRegistration
followed by approvePendingRegistration adds exactly one new User whose role
is the submitted role and whose stored password is the bcrypt hash of the
submitted plaintext applied exactly once: submit hashes, approve copies the
stored hash without re-hashing. -/
theorem C6_submit_then_approve (db : DB) (reg : RegInput) (now : String)
    (a : Nat) (n : Option String) (now2 : String)
    (h0 : ∀ r ∈ db.pendings, ¬ r.id = db.nextPendingId)
    (h1 : db.pendings.any (fun r => r.email = reg.email) = false)
    (h2 : db.users.any (fun u => u.username = reg.username) = false)
    (h3 : db.users.any (fun u => u.email = reg.email) = false)
    (h4 : reg.role = "doctor" ∨ reg.role = "staff")
    (h5 : licenseConflict db (orNullStr reg.license_number) = false) :
    ∃ (db1 : DB) (u : UserRow),
      createPendingRegistration db reg now = (db1, Except.ok db.nextPendingId) ∧
      (approvePendingRegistration db1 db.nextPendingId a n now2).2
        = Except.ok true ∧
      (approvePendingRegistration db1 db.nextPendingId a n now2).1.users
        = db.users ++ [u] ∧
      u.role = reg.role ∧ u.email = reg.email ∧
      u.password = PwVal.hashed (PwVal.plain reg.password) := by
  have hsubmit : createPendingRegistration db reg now
      = (submitState db reg now, Except.ok db.nextPendingId) := by
    unfold createPendingRegistration
    rw [if_neg (by simp [h1])]
    rfl
  have hfind : (submitState db reg now).pendings.find?
      (fun r => r.id = db.nextPendingId)
      = some (mkPendingRow db reg (PwVal.hashed (PwVal.plain reg.password)) now) := by
    show (db.pendings ++
        [mkPendingRow db reg (PwVal.hashed (PwVal.plain reg.password)) now]).find?
      (fun r => r.id = db.nextPendingId) = _
    rw [find_append_right _ _ db.pendings
      (fun x hx => decide_eq_false (h0 x hx))]
    exact List.find?_cons_of_pos _ (by simp [mkPendingRow])
  have h2' : (submitState db reg now).users.any
      (fun u => u.username =
        (mkPendingRow db reg (PwVal.hashed (PwVal.plain reg.password)) now).username)
      = false := h2
  have h3' : (submitState db reg now).users.any
      (fun u => u.email =
        (mkPendingRow db reg (PwVal.hashed (PwVal.plain reg.password)) now).email)
      = false := h3
  have h4' : (mkPendingRow db reg (PwVal.hashed (PwVal.plain reg.password)) now).role
        = "doctor" ∨
      (mkPendingRow db reg (PwVal.hashed (PwVal.plain reg.password)) now).role
        = "staff" := h4
  have h5' : (mkPendingRow db reg (PwVal.hashed (PwVal.plain reg.password)) now).role
        = "doctor" →
      licenseConflict (submitState db reg now)
        (orNullStr (mkPendingRow db reg
          (PwVal.hashed (PwVal.plain reg.password)) now).license_number)
      = false := by
    intro _
    show licenseConflict db (orNullStr (orNullStr reg.license_number)) = false
    rw [orNullStr_idem]
    exact h5
  obtain ⟨hok, husers⟩ := approve_succeeds (submitState db reg now)
    db.nextPendingId a n now2
    (mkPendingRow db reg (PwVal.hashed (PwVal.plain reg.password)) now)
    hfind h4' h2' h3' h5'
  exact ⟨submitState db reg now,
    mkApprovedUser (submitState db reg now)
      (mkPendingRow db reg (PwVal.hashed (PwVal.plain reg.password)) now) now2,
    hsubmit, hok, husers, rfl, rfl, rfl⟩

/-- Witness for C6: the staff candidate regBase submitted to the empty store
and approved by admin 9. -/
theorem C6_witness :
    ∃ (db1 : DB) (u : UserRow),
      createPendingRegistration emptyDB regBase "2026-02-07 10:00:00"
        = (db1, Except.ok emptyDB.nextPendingId) ∧
      (approvePendingRegistration db1 emptyDB.nextPendingId 9 none
        "2026-02-07 11:00:00").2 = Except.ok true ∧
      (approvePendingRegistration db1 emptyDB.nextPendingId 9 none
        "2026-02-07 11:00:00").1.users = emptyDB.users ++ [u] ∧
      u.role = regBase.role ∧ u.email = regBase.email ∧
      u.password = PwVal.hashed (PwVal.plain regBase.password) :=
  C6_submit_then_approve emptyDB regBase "2026-02-07 10:00:00" 9 none
    "2026-02-07 11:00:00" (by decide) (by decide) (by decide) (by decide)
    (by decide) (by decide)
